import Mathlib

/-!
# Cart service: store operations and request handlers

A shallow embedding of `cart-service/internal/db/repository.go` and
`cart-service/internal/api/handlers.go`.

The relational backing store is an explicit value (`DB`): three tables held as
row lists.  Every SQL text that occurs in `repository.go` is one constructor of
`Stmt`, and `Stmt.apply` gives its effect on the tables.  A `Session` plays the
role of the `*sql.DB` handle together with the `context.Context`: it carries the
tables, the reading of `NOW()`, the scripted result of each upcoming storage
call (success, or the error the driver reports: constraint violation, time-out,
lost connection), and two observation logs (statements sent to storage, store
operations entered).

Integers: Go `int` arguments and the `quantity` column are modelled by `Int`;
an out-of-range value makes the statement fail, which is a scripted outcome.
-/

namespace CartService

/-! ## models/cart.go and the product catalog -/

abbrev Time := Nat

abbrev Error := String

structure Cart where
  ID : String
  UserID : String
  Status : String
  CreatedAt : Time
  UpdatedAt : Time
deriving DecidableEq, Repr

structure CartItem where
  ID : String
  CartID : String
  ProductID : String
  Quantity : Int
  CreatedAt : Time
  UpdatedAt : Time
deriving DecidableEq, Repr

/-- Row of the external `products` relation; only the columns read by `GetCart`. -/
structure Product where
  ID : String
  Name : String
  PriceCents : Int
deriving DecidableEq, Repr

/-- Materialised row returned by `GetCart` (`CartRow` in `repository.go`). -/
structure CartRow where
  ItemID : String
  ProductID : String
  Quantity : Int
  ProductName : String
  PriceCents : Int
  CreatedAt : Time
  UpdatedAt : Time
deriving DecidableEq, Repr

/-! ## the backing store -/

structure DB where
  carts : List Cart
  cart_items : List CartItem
  products : List Product
  /-- Source of generated row identifiers. -/
  seq : Nat
deriving DecidableEq, Repr

/-- Modelled from the spec: the column default of `carts.status` (the table
definitions are not part of the repository; the spec only says a cart row is
inserted "with default status"). -/
def defaultStatus : String := "active"

/-- Identifier the store generates for the next inserted row. -/
def DB.newID (db : DB) : String := toString db.seq

/-- Modelled from the spec: the column defaults of a new `carts` row (the table
definitions are not part of the repository): a generated id, the default status and
both timestamps at the time of insertion. -/
def DB.freshCart (db : DB) (now : Time) (userID : String) : Cart :=
  ⟨db.newID, userID, defaultStatus, now, now⟩

/-- Modelled from the spec: the column defaults of a new `cart_items` row (the table
definitions are not part of the repository): a generated id and both timestamps at
the time of insertion. -/
def DB.freshItem (db : DB) (now : Time) (cartID productID : String) (qty : Int) : CartItem :=
  ⟨db.newID, cartID, productID, qty, now, now⟩

/-- The predicate `cart_id = $1 AND product_id = $2`. -/
def isPair (cartID productID : String) (i : CartItem) : Bool :=
  i.CartID == cartID && i.ProductID == productID

/-- The SQL statements of `repository.go`, one constructor per statement text. -/
inductive Stmt where
  /-- SQL `INSERT INTO carts (user_id) VALUES ($1) RETURNING id` -/
  | insertCart (userID : String)
  /-- SQL `INSERT INTO cart_items ... ON CONFLICT (cart_id, product_id) DO UPDATE SET
  quantity = cart_items.quantity + EXCLUDED.quantity, updated_at = NOW()` -/
  | upsertItem (cartID productID : String) (qty : Int)
  /-- SQL `SELECT ... FROM cart_items ci INNER JOIN products p ... ORDER BY ci.created_at ASC` -/
  | selectCart (cartID : String)
  /-- SQL `DELETE FROM cart_items WHERE cart_id = $1` -/
  | deleteCartItems (cartID : String)
  /-- SQL `UPDATE carts SET updated_at = NOW() WHERE id = $1` -/
  | touchCart (cartID : String)
  /-- SQL `DELETE FROM cart_items WHERE cart_id = $1 AND product_id = $2` -/
  | deleteItem (cartID productID : String)
  /-- SQL `UPDATE cart_items SET quantity = GREATEST(quantity - $3, 0), updated_at = NOW()
  WHERE cart_id = $1 AND product_id = $2` -/
  | decreaseQuantity (cartID productID : String) (qty : Int)
  /-- SQL `DELETE FROM cart_items WHERE cart_id = $1 AND product_id = $2 AND quantity = 0` -/
  | deleteZero (cartID productID : String)
deriving DecidableEq, Repr

/-- Effect of a committed statement on the tables; `now` is the value of `NOW()`. -/
def Stmt.apply (now : Time) (db : DB) : Stmt → DB
  | .insertCart userID =>
      { db with
        carts := db.carts ++ [db.freshCart now userID]
        seq := db.seq + 1 }
  | .upsertItem cartID productID qty =>
      if db.cart_items.any (isPair cartID productID) then
        { db with
          cart_items := db.cart_items.map fun i =>
            if isPair cartID productID i then
              { i with Quantity := i.Quantity + qty, UpdatedAt := now }
            else i }
      else
        { db with
          cart_items := db.cart_items ++ [db.freshItem now cartID productID qty]
          seq := db.seq + 1 }
  | .selectCart _ => db
  | .deleteCartItems cartID =>
      { db with cart_items := db.cart_items.filter fun i => !(i.CartID == cartID) }
  | .touchCart cartID =>
      { db with
        carts := db.carts.map fun c =>
          if c.ID == cartID then { c with UpdatedAt := now } else c }
  | .deleteItem cartID productID =>
      { db with cart_items := db.cart_items.filter fun i => !(isPair cartID productID i) }
  | .decreaseQuantity cartID productID qty =>
      { db with
        cart_items := db.cart_items.map fun i =>
          if isPair cartID productID i then
            { i with Quantity := max (i.Quantity - qty) 0, UpdatedAt := now }
          else i }
  | .deleteZero cartID productID =>
      { db with
        cart_items := db.cart_items.filter fun i =>
          !(isPair cartID productID i && i.Quantity == 0) }

/-- The join of the `selectCart` statement before ordering: every pair of an item
of the cart and a product with `p.id = ci.product_id`. -/
def joinRows (db : DB) (cartID : String) : List CartRow :=
  (db.cart_items.filter fun ci => ci.CartID == cartID).flatMap fun ci =>
    (db.products.filter fun p => p.ID == ci.ProductID).map fun p =>
      ⟨ci.ID, ci.ProductID, ci.Quantity, p.Name, p.PriceCents, ci.CreatedAt, ci.UpdatedAt⟩

/-- Result set of the `selectCart` statement: the join in `created_at` order. -/
def selectCartRows (db : DB) (cartID : String) : List CartRow :=
  List.insertionSort (fun a b => a.CreatedAt ≤ b.CreatedAt) (joinRows db cartID)

/-- Names of the store operations, for the call log. -/
inductive StoreOp where
  | CreateCart | AddItem | GetCart | EmptyCart | RemoveItem | DecreaseItem
deriving DecidableEq, Repr

/-- The database handle and request context seen by one operation. -/
structure Session where
  db : DB
  /-- Reading of `NOW()` inside the statements of this session. -/
  now : Time
  /-- Result of each upcoming storage call, in order: `none` is success, `some e`
  the error reported.  Calls past the end of the script succeed. -/
  outcomes : List (Option Error)
  /-- Statements sent to storage so far. -/
  issued : List Stmt
  /-- Store operations entered so far. -/
  calls : List StoreOp
deriving DecidableEq, Repr

def Session.enter (s : Session) (op : StoreOp) : Session :=
  { s with calls := s.calls ++ [op] }

/-- One storage call (`ExecContext`, `QueryContext`, `QueryRowContext`): the
statement is sent and the next scripted outcome is consumed; the statement either
commits or fails as a whole and leaves the tables as they were.  An expired
`context.WithTimeout` deadline shows up as a failing call. -/
def Session.ExecContext (s : Session) (q : Stmt) : Option Error × Session :=
  match s.outcomes with
  | some e :: rest =>
      (some e, { s with outcomes := rest, issued := s.issued ++ [q] })
  | none :: rest =>
      (none, { s with db := q.apply s.now s.db, outcomes := rest, issued := s.issued ++ [q] })
  | [] =>
      (none, { s with db := q.apply s.now s.db, issued := s.issued ++ [q] })

/-- Outcome scripted for the `k`-th upcoming storage call. -/
def Session.outcome (s : Session) (k : Nat) : Option Error :=
  (s.outcomes.get? k).join

/-! ## db/repository.go -/

def CreateCart (s : Session) (userID : String) : (String × Option Error) × Session :=
  let s := s.enter .CreateCart
  let id := s.db.newID
  match s.ExecContext (.insertCart userID) with
  | (some err, s) => (("", some err), s)
  | (none, s) => ((id, none), s)

def AddItem (s : Session) (cartID productID : String) (qty : Int) : Option Error × Session :=
  let s := s.enter .AddItem
  if qty ≤ 0 then
    (some "quantity must be > 0", s)
  else
    s.ExecContext (.upsertItem cartID productID qty)

/-- The cursor loop appends the rows of the result set in order; a failure while
scanning or iterating is part of the scripted outcome of the query. -/
def GetCart (s : Session) (cartID : String) : (List CartRow × Option Error) × Session :=
  let s := s.enter .GetCart
  let rows := selectCartRows s.db cartID
  match s.ExecContext (.selectCart cartID) with
  | (some err, s) => (([], some err), s)
  | (none, s) =>
      let out := rows.foldl (fun out r => out ++ [r]) []
      ((out, none), s)

def EmptyCart (s : Session) (cartID : String) : Option Error × Session :=
  let s := s.enter .EmptyCart
  match s.ExecContext (.deleteCartItems cartID) with
  | (some err, s) => (some err, s)
  | (none, s) =>
      match s.ExecContext (.touchCart cartID) with
      | (some err, s) => (some err, s)
      | (none, s) => (none, s)

def RemoveItem (s : Session) (cartID productID : String) : Option Error × Session :=
  let s := s.enter .RemoveItem
  s.ExecContext (.deleteItem cartID productID)

def DecreaseItem (s : Session) (cartID productID : String) (qty : Int) : Option Error × Session :=
  let s := s.enter .DecreaseItem
  let (err, s) := s.ExecContext (.decreaseQuantity cartID productID qty)
  let (_, s) := s.ExecContext (.deleteZero cartID productID)
  (err, s)

/-! ## observations on the store -/

/-- The `cart_items` rows of one (cart, product) pair. -/
def DB.rowsFor (db : DB) (cartID productID : String) : List CartItem :=
  db.cart_items.filter (isPair cartID productID)

/-- The `cart_items` rows of one cart. -/
def DB.itemsOf (db : DB) (cartID : String) : List CartItem :=
  db.cart_items.filter fun i => i.CartID == cartID

/-- The `updated_at` column of the cart with the given id. -/
def DB.cartUpdatedAt (db : DB) (cartID : String) : Option Time :=
  (db.carts.find? fun c => c.ID == cartID).map (·.UpdatedAt)

/-- Every stored item has a strictly positive quantity. -/
def PositiveQuantities (db : DB) : Prop :=
  ∀ i ∈ db.cart_items, 0 < i.Quantity

instance (db : DB) : Decidable (PositiveQuantities db) := by
  unfold PositiveQuantities; infer_instance

/-- The mutating store operations with their arguments. -/
inductive Op where
  | CreateCart (userID : String)
  | AddItem (cartID productID : String) (qty : Int)
  | DecreaseItem (cartID productID : String) (qty : Int)
  | RemoveItem (cartID productID : String)
  | EmptyCart (cartID : String)
deriving DecidableEq, Repr

/-- Run one store operation; the result is its error value and the session after it. -/
def Op.run (s : Session) : Op → Option Error × Session
  | .CreateCart userID =>
      ((CartService.CreateCart s userID).1.2, (CartService.CreateCart s userID).2)
  | .AddItem cartID productID qty => CartService.AddItem s cartID productID qty
  | .DecreaseItem cartID productID qty => CartService.DecreaseItem s cartID productID qty
  | .RemoveItem cartID productID => CartService.RemoveItem s cartID productID
  | .EmptyCart cartID => CartService.EmptyCart s cartID

/-- No upcoming storage call is scripted to fail. -/
def Session.allSucceed (s : Session) : Prop :=
  ∀ k, s.outcome k = none

/-! ## the reference query of the spec for GetCart -/

/-- Catalog lookup `(product_id) -> {name, price}`. -/
def DB.product? (db : DB) (id : String) : Option Product :=
  db.products.find? fun p => p.ID == id

/-- Reference rows, following the words of the spec: one row per item of the cart
whose product exists in the catalog, carrying the item id, product id, quantity and
timestamps together with the name and price of the product; an item with a dangling
product reference yields no row. -/
def referenceRows (db : DB) (cartID : String) : List CartRow :=
  (db.itemsOf cartID).filterMap fun ci =>
    (db.product? ci.ProductID).map fun p =>
      ⟨ci.ID, ci.ProductID, ci.Quantity, p.Name, p.PriceCents, ci.CreatedAt, ci.UpdatedAt⟩

/-- A sequence is an answer of the reference query when it holds exactly the
reference rows, ordered by item creation time ascending. -/
def IsReferenceAnswer (db : DB) (cartID : String) (rows : List CartRow) : Prop :=
  rows.Perm (referenceRows db cartID) ∧
    rows.Sorted (fun a b => a.CreatedAt ≤ b.CreatedAt)

instance createdAtTotal : IsTotal CartRow (fun a b => a.CreatedAt ≤ b.CreatedAt) :=
  ⟨fun a b => Nat.le_total a.CreatedAt b.CreatedAt⟩

instance createdAtTrans : IsTrans CartRow (fun a b => a.CreatedAt ≤ b.CreatedAt) :=
  ⟨fun _ _ _ hab hbc => Nat.le_trans hab hbc⟩

/-- The `products` relation is keyed by product identifier. -/
def ProductsKeyed (db : DB) : Prop :=
  (db.products.map (·.ID)).Nodup

/-- Modelled from the spec: the reference from `cart_items.cart_id` to `carts.id`
(the table definitions are not part of the repository; the spec states that every
item references a cart that exists, and carts are never deleted). -/
def ItemsReferenceCarts (db : DB) : Prop :=
  ∀ i ∈ db.cart_items, ∃ c ∈ db.carts, c.ID = i.CartID

/-! ## the single-unit reading of DecreaseItem -/

/-- The decrease and the cleanup taken as one unit of work on the tables. -/
def decreaseUnit (now : Time) (db : DB) (cartID productID : String) (qty : Int) : DB :=
  (Stmt.deleteZero cartID productID).apply now
    ((Stmt.decreaseQuantity cartID productID qty).apply now db)

/-- The call behaves as a single logical unit: success with the decrease and the
cleanup both applied, or an error with the tables unchanged. -/
def DecreaseIsUnit (s : Session) (cartID productID : String) (qty : Int) : Prop :=
  ((DecreaseItem s cartID productID qty).1 = none ∧
      (DecreaseItem s cartID productID qty).2.db = decreaseUnit s.now s.db cartID productID qty) ∨
  ((DecreaseItem s cartID productID qty).1 ≠ none ∧
      (DecreaseItem s cartID productID qty).2.db = s.db)

instance (s : Session) (cartID productID : String) (qty : Int) :
    Decidable (DecreaseIsUnit s cartID productID qty) := by
  unfold DecreaseIsUnit; infer_instance

/-! ## api/handlers.go -/

/-- Go `strings.Trim(s, "/")` on the characters of `s`. -/
def Trim (s : List Char) : List Char :=
  (s.dropWhile fun c => c == '/').rdropWhile fun c => c == '/'

/-- Go `strings.Split(s, "/")` on the characters of `s`; the empty string gives one
empty part. -/
def Split : List Char → List (List Char)
  | [] => [[]]
  | c :: cs =>
    if c = '/' then [] :: Split cs
    else
      match Split cs with
      | [] => [[c]]
      | part :: parts => (c :: part) :: parts

/-- The value `strings.Split(strings.Trim(r.URL.Path, "/"), "/")`. -/
def pathParts (path : String) : List String :=
  (Split (Trim path.data)).map String.mk

/-- Fields of a decoded JSON request body.  Each handler declares a `req` struct
with the keys it reads; a key absent from the body leaves the zero value. -/
structure Payload where
  UserID : String
  ProductID : String
  Quantity : Int
deriving DecidableEq, Repr

/-- Value of a hexadecimal digit (`ishex` and `unhex` of `net/url`). -/
def unhex (c : Char) : Option Nat :=
  if '0' ≤ c ∧ c ≤ '9' then some (c.toNat - 48)
  else if 'a' ≤ c ∧ c ≤ 'f' then some (c.toNat - 87)
  else if 'A' ≤ c ∧ c ≤ 'F' then some (c.toNat - 55)
  else none

/-- Percent-decoding of a path (`unescape` of `net/url` in path mode): every `%XY`
with two hexadecimal digits becomes the byte `16 * X + Y`, every other character
stands for itself; `none` when a `%` is not followed by two hexadecimal digits.
Strings are read as byte sequences, the character of code `n < 256` standing for
byte `n`. -/
def unescape : List Char → Option (List Char)
  | [] => some []
  | c :: rest =>
    if c = '%' then
      match rest with
      | h :: l :: rest2 =>
        match unhex h, unhex l with
        | some a, some b => (unescape rest2).map fun out => Char.ofNat (16 * a + b) :: out
        | _, _ => none
      | _ => none
    else (unescape rest).map fun out => c :: out

/-- The helper `pathUnescape` of `net/http`: the decoded text, or the text itself
when it has a malformed escape. -/
def pathUnescape (s : List Char) : List Char :=
  (unescape s).getD s

structure Request where
  Method : String
  /-- The value `r.URL.EscapedPath()`: the path as sent, percent escapes included. -/
  EscapedPath : String
  /-- Result of `json.NewDecoder(r.Body).Decode(&body)` for the handler serving the
  request: `none` when decoding reports an error. -/
  Body : Option Payload
deriving DecidableEq, Repr

/-- The field `r.URL.Path`: the decoded path.  A request line whose path has a
malformed escape is refused by the server before any routing. -/
def Request.Path (r : Request) : String :=
  String.mk (pathUnescape r.EscapedPath.data)

/-- What a handler writes as the response body. -/
inductive Reply where
  /-- Plain text written by `http.Error` or `http.NotFound`. -/
  | text (msg : String)
  /-- JSON `{"cart_id": id}`. -/
  | created (cartID : String)
  /-- JSON `{"cart_id": id, "items": rows}`. -/
  | cart (cartID : String) (items : List CartRow)
  /-- JSON `{"ok": true}`. -/
  | ok
deriving DecidableEq, Repr

structure Response where
  Status : Nat
  Body : Reply
deriving DecidableEq, Repr

def StatusOK : Nat := 200
def StatusCreated : Nat := 201
def StatusBadRequest : Nat := 400
def StatusNotFound : Nat := 404
def StatusInternalServerError : Nat := 500

def httpError (msg : String) (code : Nat) : Response := ⟨code, .text msg⟩

def httpNotFound : Response := httpError "404 page not found" StatusNotFound

def writeJSON (status : Nat) (v : Reply) : Response := ⟨status, v⟩

def createCart (r : Request) (conn : Session) : Response × Session :=
  if r.Method ≠ "POST" then (httpNotFound, conn)
  else
    match r.Body with
    | none => (httpError "invalid body" StatusBadRequest, conn)
    | some body =>
      if body.UserID = "" then (httpError "invalid body" StatusBadRequest, conn)
      else
        match CreateCart conn body.UserID with
        | ((_, some err), conn) => (httpError err StatusInternalServerError, conn)
        | ((id, none), conn) => (writeJSON StatusCreated (.created id), conn)

def viewCart (r : Request) (conn : Session) : Response × Session :=
  if r.Method ≠ "GET" then (httpNotFound, conn)
  else
    match pathParts r.Path with
    | [p0, cartID] =>
      if p0 ≠ "carts" then (httpNotFound, conn)
      else
        match GetCart conn cartID with
        | ((_, some err), conn) => (httpError err StatusInternalServerError, conn)
        | ((rows, none), conn) => (writeJSON StatusOK (.cart cartID rows), conn)
    | _ => (httpNotFound, conn)

def emptyCart (r : Request) (conn : Session) : Response × Session :=
  if r.Method ≠ "DELETE" then (httpNotFound, conn)
  else
    match pathParts r.Path with
    | [p0, cartID, p2] =>
      if p0 ≠ "carts" ∨ p2 ≠ "items" then (httpNotFound, conn)
      else
        match EmptyCart conn cartID with
        | (some err, conn) => (httpError err StatusInternalServerError, conn)
        | (none, conn) => (writeJSON StatusOK .ok, conn)
    | _ => (httpNotFound, conn)

def deleteItem (r : Request) (conn : Session) : Response × Session :=
  if r.Method ≠ "DELETE" then (httpNotFound, conn)
  else
    match pathParts r.Path with
    | [p0, cartID, p2, productID] =>
      if p0 ≠ "carts" ∨ p2 ≠ "items" then (httpNotFound, conn)
      else
        match RemoveItem conn cartID productID with
        | (some err, conn) => (httpError err StatusInternalServerError, conn)
        | (none, conn) => (writeJSON StatusOK .ok, conn)
    | _ => (httpNotFound, conn)

def addItem (r : Request) (conn : Session) : Response × Session :=
  if r.Method ≠ "POST" then (httpNotFound, conn)
  else
    match pathParts r.Path with
    | [p0, cartID, p2] =>
      if p0 ≠ "carts" ∨ p2 ≠ "items" then (httpNotFound, conn)
      else
        match r.Body with
        | none => (httpError "invalid body" StatusBadRequest, conn)
        | some body =>
          if body.ProductID = "" ∨ body.Quantity ≤ 0 then
            (httpError "invalid body" StatusBadRequest, conn)
          else
            match AddItem conn cartID body.ProductID body.Quantity with
            | (some err, conn) => (httpError err StatusInternalServerError, conn)
            | (none, conn) => (writeJSON StatusOK .ok, conn)
    | _ => (httpNotFound, conn)

def decreaseItem (r : Request) (conn : Session) : Response × Session :=
  if r.Method ≠ "PATCH" then (httpNotFound, conn)
  else
    match pathParts r.Path with
    | [p0, cartID, p2, productID] =>
      if p0 ≠ "carts" ∨ p2 ≠ "items" then (httpNotFound, conn)
      else
        match r.Body with
        | none => (httpError "invalid body: need positive 'quantity'" StatusBadRequest, conn)
        | some body =>
          if body.Quantity ≤ 0 then
            (httpError "invalid body: need positive 'quantity'" StatusBadRequest, conn)
          else
            match DecreaseItem conn cartID productID body.Quantity with
            | (some err, conn) => (httpError err StatusInternalServerError, conn)
            | (none, conn) => (writeJSON StatusOK .ok, conn)
    | _ => (httpNotFound, conn)

/-- The handlers registered by `RegisterCartRoutes`. -/
inductive Handler where
  | createCart | viewCart | emptyCart | addItem | deleteItem | decreaseItem
deriving DecidableEq, Repr

def Handler.serve : Handler → Request → Session → Response × Session
  | .createCart => CartService.createCart
  | .viewCart => CartService.viewCart
  | .emptyCart => CartService.emptyCart
  | .addItem => CartService.addItem
  | .deleteItem => CartService.deleteItem
  | .decreaseItem => CartService.decreaseItem

/-- One segment of a `ServeMux` path pattern: a literal, or a `{name}` wildcard. -/
inductive Seg where
  | lit (s : String)
  | wild
deriving DecidableEq, Repr

/-- One step of `routingNode.matchPath` on a segment of the escaped path.  The mux
unescapes the segment (`firstSegment`) and then compares: a literal matches its own
text, a wildcard matches every segment except the trailing-slash marker `/`.  An
empty part stands for that marker (the path ends in a slash). -/
def Seg.accepts : Seg → List Char → Bool
  | .lit s, part => !part.isEmpty && pathUnescape part == s.data
  | .wild, part => !part.isEmpty && pathUnescape part != ['/']

def segsAccept : List Seg → List (List Char) → Bool
  | [], [] => true
  | sg :: sgs, part :: parts => sg.accepts part && segsAccept sgs parts
  | _, _ => false

/-- Segments of a path that `cleanPath` leaves as it is: no empty segment other
than a last one (a trailing slash) and no `.` or `..` segment. -/
def cleanSegs : List (List Char) → Bool
  | [] => true
  | [last] => last != ['.'] && last != ['.', '.']
  | seg :: rest => !seg.isEmpty && seg != ['.'] && seg != ['.', '.'] && cleanSegs rest

/-- A request path is served by a pattern without trailing slash when the escaped
path is its own `cleanPath` (any other path is answered with a redirect by the mux)
and is `/` followed by exactly the segments of the pattern. -/
def patternAccepts (pattern : List Seg) (escapedPath : String) : Bool :=
  match escapedPath.data with
  | '/' :: rest => cleanSegs (Split rest) && segsAccept pattern (Split rest)
  | _ => false

/-- Method part of a pattern (`matchMethodAndPath`): the method itself, and a `GET`
pattern also serves `HEAD`. -/
def methodAccepts (registered method : String) : Bool :=
  method == registered || (method == "HEAD" && registered == "GET")

structure Route where
  Method : String
  Pattern : List Seg
  Handler : Handler
deriving DecidableEq, Repr

/-- The method and path patterns of `RegisterCartRoutes`, in registration order. -/
def RegisterCartRoutes : List Route :=
  [ ⟨"POST", [.lit "carts"], .createCart⟩,
    ⟨"GET", [.lit "carts", .wild], .viewCart⟩,
    ⟨"DELETE", [.lit "carts", .wild, .lit "items"], .emptyCart⟩,
    ⟨"POST", [.lit "carts", .wild, .lit "items"], .addItem⟩,
    ⟨"DELETE", [.lit "carts", .wild, .lit "items", .wild], .deleteItem⟩,
    ⟨"PATCH", [.lit "carts", .wild, .lit "items", .wild], .decreaseItem⟩ ]

/-- The handler `ServeMux` selects for a request, if a registered pattern serves it.
The mux matches on the escaped path, segment by segment; no two registered patterns
serve the same method and path, so precedence plays no role. -/
def dispatch (r : Request) : Option Handler :=
  (RegisterCartRoutes.find? fun rt =>
    methodAccepts rt.Method r.Method && patternAccepts rt.Pattern r.EscapedPath).map
    (·.Handler)

/-- Serving a request: the selected handler runs; `none` when the mux answers by
itself (redirect, not found, method not allowed). -/
def ServeHTTP (r : Request) (conn : Session) : Option (Response × Session) :=
  (dispatch r).map fun h => h.serve r conn

/-- Parts joined back with `/` between them (Go `strings.Join(parts, "/")`). -/
def joinParts : List (List Char) → List Char
  | [] => []
  | [a] => a
  | a :: b :: t => a ++ '/' :: joinParts (b :: t)

/-! ## storage-call lemmas -/

theorem outcome_enter (s : Session) (op : StoreOp) (k : Nat) :
    (s.enter op).outcome k = s.outcome k := rfl

theorem execContext_ok (s : Session) (q : Stmt) (h : s.outcome 0 = none) :
    s.ExecContext q =
      (none, { s with db := q.apply s.now s.db, outcomes := s.outcomes.tail,
                      issued := s.issued ++ [q] }) := by
  obtain ⟨db, now, outcomes, issued, calls⟩ := s
  cases outcomes with
  | nil => rfl
  | cons o rest =>
    cases o with
    | none => rfl
    | some e => simp [Session.outcome] at h

/-! ## row-list lemmas -/

theorem filter_map_update {α : Type} (P : α → Bool) (g : α → α)
    (hg : ∀ i, P (g i) = P i) (l : List α) :
    (l.map fun i => if P i then g i else i).filter P = (l.filter P).map g := by
  induction l with
  | nil => rfl
  | cons x xs ih =>
    by_cases hx : P x = true
    · simp [List.filter, hx, hg, ih]
    · simp [List.filter, hx, ih]

theorem any_eq_false_of_filter_nil {α : Type} (P : α → Bool) (l : List α)
    (h : l.filter P = []) : l.any P = false := by
  simpa [List.filter_eq_nil_iff] using h

theorem any_eq_true_of_filter_ne_nil {α : Type} (P : α → Bool) (l : List α)
    (h : l.filter P ≠ []) : l.any P = true := by
  cases hl : l.filter P with
  | nil => exact absurd hl h
  | cons x xs =>
    have hx : x ∈ l.filter P := by rw [hl]; exact List.mem_cons_self _ _
    rw [List.mem_filter] at hx
    exact List.any_eq_true.mpr ⟨x, hx.1, hx.2⟩

theorem isPair_self (c p id : String) (q : Int) (t u : Time) :
    isPair c p ⟨id, c, p, q, t, u⟩ = true := by
  simp [isPair]

/-! ## AddItem -/

theorem addItem_ok (s : Session) (c p : String) (q : Int) (hq : 0 < q)
    (h0 : s.outcome 0 = none) :
    AddItem s c p q =
      (none, { s with db := (Stmt.upsertItem c p q).apply s.now s.db,
                      outcomes := s.outcomes.tail,
                      issued := s.issued ++ [.upsertItem c p q],
                      calls := s.calls ++ [.AddItem] }) := by
  have hq2 : ¬ q ≤ 0 := not_le.mpr hq
  unfold AddItem
  simp only [hq2, if_false]
  rw [execContext_ok _ _ (by rw [outcome_enter]; exact h0)]
  rfl

theorem upsert_rows_missing (db : DB) (now : Time) (c p : String) (q : Int)
    (h : db.rowsFor c p = []) :
    ((Stmt.upsertItem c p q).apply now db).rowsFor c p = [db.freshItem now c p q] := by
  have hany := any_eq_false_of_filter_nil _ _ h
  unfold DB.rowsFor at h
  simp [Stmt.apply, hany, DB.rowsFor, List.filter_append, h, List.filter, DB.freshItem,
    isPair_self]

theorem upsert_rows_present (db : DB) (now : Time) (c p : String) (q : Int)
    (h : db.rowsFor c p ≠ []) :
    ((Stmt.upsertItem c p q).apply now db).rowsFor c p =
      (db.rowsFor c p).map fun i => { i with Quantity := i.Quantity + q, UpdatedAt := now } := by
  have hany := any_eq_true_of_filter_ne_nil _ _ h
  simp only [Stmt.apply, hany, if_true, DB.rowsFor]
  exact filter_map_update (isPair c p)
    (fun i => { i with Quantity := i.Quantity + q, UpdatedAt := now }) (fun i => rfl) db.cart_items


theorem outcome_succ_of_tail (s t : Session) (h : t.outcomes = s.outcomes.tail) (k : Nat) :
    t.outcome k = s.outcome (k + 1) := by
  obtain ⟨db0, now, outcomes, issued0, calls⟩ := s
  cases outcomes with
  | nil => simp_all [Session.outcome]
  | cons o rest => simp_all [Session.outcome]

theorem addItem_rejects_zero (s : Session) (c p : String) (qty : Int) (h : qty ≤ 0) :
    (AddItem s c p qty).1 = some "quantity must be > 0" ∧ (AddItem s c p qty).2.db = s.db := by
  simp [AddItem, h, Session.enter]

/-! ## DecreaseItem -/

theorem decreaseItem_both_ok (s : Session) (c p : String) (q : Int)
    (h0 : s.outcome 0 = none) (h1 : s.outcome 1 = none) :
    DecreaseItem s c p q =
      (none, { s with db := decreaseUnit s.now s.db c p q,
                      outcomes := s.outcomes.tail.tail,
                      issued := s.issued ++ [.decreaseQuantity c p q, .deleteZero c p],
                      calls := s.calls ++ [.DecreaseItem] }) := by
  obtain ⟨db, now, outcomes, issued, calls⟩ := s
  rcases outcomes with _ | ⟨_ | e, _ | ⟨_ | e2, rest⟩⟩ <;>
    simp [Session.outcome] at h0 h1 <;>
    simp [DecreaseItem, Session.ExecContext, Session.enter, decreaseUnit]

theorem decreaseItem_first_fails (s : Session) (c p : String) (q : Int) (e : Error)
    (h0 : s.outcome 0 = some e) :
    (DecreaseItem s c p q).1 = some e ∧
    ((DecreaseItem s c p q).2.db = s.db ∨
      (DecreaseItem s c p q).2.db = (Stmt.deleteZero c p).apply s.now s.db) ∧
    (s.outcome 1 ≠ none → (DecreaseItem s c p q).2.db = s.db) ∧
    (s.outcome 1 = none →
      (DecreaseItem s c p q).2.db = (Stmt.deleteZero c p).apply s.now s.db) := by
  obtain ⟨db, now, outcomes, issued, calls⟩ := s
  rcases outcomes with _ | ⟨_ | e1, _ | ⟨_ | e2, rest⟩⟩ <;>
    simp [Session.outcome] at h0 <;>
    simp [DecreaseItem, Session.ExecContext, Session.enter, Session.outcome, h0]

theorem rowsFor_decreaseQuantity (db : DB) (now : Time) (c p : String) (q : Int) :
    ((Stmt.decreaseQuantity c p q).apply now db).rowsFor c p =
      (db.rowsFor c p).map fun i =>
        { i with Quantity := max (i.Quantity - q) 0, UpdatedAt := now } :=
  filter_map_update (isPair c p)
    (fun i => { i with Quantity := max (i.Quantity - q) 0, UpdatedAt := now })
    (fun _ => rfl) db.cart_items

theorem rowsFor_deleteZero (db : DB) (now : Time) (c p : String) :
    ((Stmt.deleteZero c p).apply now db).rowsFor c p =
      (db.rowsFor c p).filter fun i => !(i.Quantity == 0) := by
  simp only [Stmt.apply, DB.rowsFor, List.filter_filter]
  apply List.filter_congr
  intro i _
  by_cases hp : isPair c p i = true <;> simp [hp]

theorem rowsFor_decreaseUnit (db : DB) (now : Time) (c p : String) (q : Int) :
    (decreaseUnit now db c p q).rowsFor c p =
      ((db.rowsFor c p).map fun i =>
        { i with Quantity := max (i.Quantity - q) 0, UpdatedAt := now }).filter
        fun i => !(i.Quantity == 0) := by
  unfold decreaseUnit
  rw [rowsFor_deleteZero, rowsFor_decreaseQuantity]

theorem positive_decreaseUnit (db : DB) (now : Time) (c p : String) (q : Int)
    (h : PositiveQuantities db) : PositiveQuantities (decreaseUnit now db c p q) := by
  intro i hi
  simp only [decreaseUnit, Stmt.apply, List.mem_filter, List.mem_map] at hi
  obtain ⟨⟨j, hj, hji⟩, hkeep⟩ := hi
  by_cases hp : isPair c p j = true
  · simp only [hp, if_true] at hji
    subst hji
    have hpair : isPair c p
        { j with Quantity := max (j.Quantity - q) 0, UpdatedAt := now } = true := hp
    simp only [hpair, Bool.true_and, Bool.not_eq_true', beq_eq_false_iff_ne, ne_eq] at hkeep
    have hge : (0 : Int) ≤ max (j.Quantity - q) 0 := le_max_right _ _
    exact lt_of_le_of_ne hge (Ne.symm hkeep)
  · simp only [hp] at hji
    subst hji
    exact h _ hj

theorem deleteZero_no_zero (db : DB) (now : Time) (c p : String)
    (h : ∀ i ∈ db.rowsFor c p, i.Quantity ≠ 0) :
    (Stmt.deleteZero c p).apply now db = db := by
  obtain ⟨carts, items, products, seq⟩ := db
  simp only [DB.rowsFor, List.mem_filter, and_imp] at h
  simp only [Stmt.apply, DB.mk.injEq, true_and, and_true, List.filter_eq_self]
  intro i hi
  by_cases hp : isPair c p i = true
  · simp [hp, h i hi hp]
  · simp [hp]

/-! ## RemoveItem, EmptyCart, CreateCart -/

theorem removeItem_ok (s : Session) (c p : String) (h0 : s.outcome 0 = none) :
    RemoveItem s c p =
      (none, { s with db := (Stmt.deleteItem c p).apply s.now s.db,
                      outcomes := s.outcomes.tail,
                      issued := s.issued ++ [.deleteItem c p],
                      calls := s.calls ++ [.RemoveItem] }) := by
  unfold RemoveItem
  rw [execContext_ok _ _ (by rw [outcome_enter]; exact h0)]
  rfl

theorem rowsFor_deleteItem (db : DB) (now : Time) (c p : String) :
    ((Stmt.deleteItem c p).apply now db).rowsFor c p = [] := by
  simp [Stmt.apply, DB.rowsFor, List.filter_filter]

theorem deleteItem_absent (db : DB) (now : Time) (c p : String) (h : db.rowsFor c p = []) :
    (Stmt.deleteItem c p).apply now db = db := by
  obtain ⟨carts, items, products, seq⟩ := db
  simp only [DB.rowsFor, List.filter_eq_nil_iff] at h
  simp only [Stmt.apply, DB.mk.injEq, true_and, and_true, List.filter_eq_self]
  intro i hi
  simpa using h i hi

theorem emptyCart_both_ok (s : Session) (c : String)
    (h0 : s.outcome 0 = none) (h1 : s.outcome 1 = none) :
    EmptyCart s c =
      (none, { s with db := (Stmt.touchCart c).apply s.now
                              ((Stmt.deleteCartItems c).apply s.now s.db),
                      outcomes := s.outcomes.tail.tail,
                      issued := s.issued ++ [.deleteCartItems c, .touchCart c],
                      calls := s.calls ++ [.EmptyCart] }) := by
  obtain ⟨db, now, outcomes, issued, calls⟩ := s
  rcases outcomes with _ | ⟨_ | e, _ | ⟨_ | e2, rest⟩⟩ <;>
    simp [Session.outcome] at h0 h1 <;>
    simp [EmptyCart, Session.ExecContext, Session.enter]

theorem createCart_ok (s : Session) (u : String) (h0 : s.outcome 0 = none) :
    CreateCart s u =
      ((s.db.newID, none),
        { s with db := (Stmt.insertCart u).apply s.now s.db,
                 outcomes := s.outcomes.tail,
                 issued := s.issued ++ [.insertCart u],
                 calls := s.calls ++ [.CreateCart] }) := by
  obtain ⟨db, now, outcomes, issued, calls⟩ := s
  rcases outcomes with _ | ⟨_ | e, rest⟩ <;>
    simp [Session.outcome] at h0 <;>
    simp [CreateCart, Session.ExecContext, Session.enter]

theorem find_map_update {α : Type} (P : α → Bool) (g : α → α)
    (hg : ∀ i, P (g i) = P i) (l : List α) :
    (l.map fun i => if P i then g i else i).find? P = (l.find? P).map g := by
  induction l with
  | nil => rfl
  | cons x xs ih =>
    by_cases hx : P x = true
    · simp [List.find?, hx, hg]
    · simp [List.find?, hx, ih]

/-- C1: with a positive quantity and a succeeding storage statement, AddItem reports
no error; on a missing (cart, product) row it inserts one row of that quantity; on an
existing row of quantity n it leaves that row with quantity n + q; and two successive
adds of a and b to a pair without a row leave exactly one row, of quantity a + b. -/
theorem addItem_merges (s : Session) (c p : String) (a : Int) (ha : 0 < a)
    (h0 : s.outcome 0 = none) :
    (AddItem s c p a).1 = none ∧
    (s.db.rowsFor c p = [] →
      (AddItem s c p a).2.db.rowsFor c p = [s.db.freshItem s.now c p a]) ∧
    (∀ it : CartItem, s.db.rowsFor c p = [it] →
      (AddItem s c p a).2.db.rowsFor c p =
        [{ it with Quantity := it.Quantity + a, UpdatedAt := s.now }]) ∧
    (∀ (b : Int) (later : Time), 0 < b → s.outcome 1 = none → s.db.rowsFor c p = [] →
      (AddItem { (AddItem s c p a).2 with now := later } c p b).1 = none ∧
      ((AddItem { (AddItem s c p a).2 with now := later } c p b).2.db.rowsFor c p).map
        (·.Quantity) = [a + b]) := by
  rw [addItem_ok s c p a ha h0]
  refine ⟨rfl, ?_, ?_, ?_⟩
  · intro hmiss
    exact upsert_rows_missing s.db s.now c p a hmiss
  · intro it hrow
    have hne : s.db.rowsFor c p ≠ [] := by rw [hrow]; simp
    show ((Stmt.upsertItem c p a).apply s.now s.db).rowsFor c p = _
    rw [upsert_rows_present s.db s.now c p a hne, hrow]
    rfl
  · intro b later hb h1 hmiss
    have hnext : Session.outcome
        { db := (Stmt.upsertItem c p a).apply s.now s.db, now := later,
          outcomes := s.outcomes.tail, issued := s.issued ++ [Stmt.upsertItem c p a],
          calls := s.calls ++ [StoreOp.AddItem] } 0 = none := by
      rw [outcome_succ_of_tail s _ rfl 0]; exact h1
    rw [addItem_ok _ c p b hb hnext]
    refine ⟨rfl, ?_⟩
    have hrow := upsert_rows_missing s.db s.now c p a hmiss
    have hne : ((Stmt.upsertItem c p a).apply s.now s.db).rowsFor c p ≠ [] := by
      rw [hrow]; simp
    show (((Stmt.upsertItem c p b).apply later
      ((Stmt.upsertItem c p a).apply s.now s.db)).rowsFor c p).map (·.Quantity) = [a + b]
    rw [upsert_rows_present _ later c p b hne, hrow]
    rfl

/-- Witness of C1 on an empty store: adding 2 then 3 of p1 to cart c1. -/
theorem addItem_merges_witness :
    ((AddItem { (AddItem ⟨⟨[], [], [], 0⟩, 10, [], [], []⟩ "c1" "p1" 2).2 with now := 11 }
      "c1" "p1" 3).2.db.rowsFor "c1" "p1").map (·.Quantity) = [2 + 3] :=
  ((addItem_merges ⟨⟨[], [], [], 0⟩, 10, [], [], []⟩ "c1" "p1" 2 (by decide) (by decide)).2.2.2
    3 11 (by decide) (by decide) (by decide)).2

/-- C3: a quantity that is zero or negative makes AddItem return the validation
error without sending any statement to storage; the tables and the script of the
storage are exactly as before the call. -/
theorem addItem_rejects_nonpositive (s : Session) (c p : String) (qty : Int) (h : qty ≤ 0) :
    (AddItem s c p qty).1 = some "quantity must be > 0" ∧
    (AddItem s c p qty).2.db = s.db ∧
    (AddItem s c p qty).2.issued = s.issued ∧
    (AddItem s c p qty).2.outcomes = s.outcomes := by
  simp [AddItem, h, Session.enter]

/-- Witness of C3: AddItem(c1, p2, -1) on a store holding one item. -/
theorem addItem_rejects_nonpositive_witness :
    (AddItem ⟨⟨[], [⟨"i1", "c1", "p1", 5, 1, 1⟩], [], 1⟩, 10, [], [], []⟩ "c1" "p2" (-1)).1
      = some "quantity must be > 0" ∧
    (AddItem ⟨⟨[], [⟨"i1", "c1", "p1", 5, 1, 1⟩], [], 1⟩, 10, [], [], []⟩ "c1" "p2" (-1)).2.issued
      = [] :=
  ⟨(addItem_rejects_nonpositive ⟨⟨[], [⟨"i1", "c1", "p1", 5, 1, 1⟩], [], 1⟩, 10, [], [], []⟩
      "c1" "p2" (-1) (by decide)).1,
   (addItem_rejects_nonpositive ⟨⟨[], [⟨"i1", "c1", "p1", 5, 1, 1⟩], [], 1⟩, 10, [], [], []⟩
      "c1" "p2" (-1) (by decide)).2.2.1⟩

/-- C2: for an existing (cart, product) row of quantity n and an amount d (any n and
d, in particular n > 0 and d > 0), with both storage statements succeeding,
DecreaseItem reports no error and never stores a negative quantity (neither after the
decrease statement nor at the end); when d < n the row remains with quantity n - d,
and when d >= n no row of the pair remains. -/
theorem decreaseItem_floor_and_cleanup (s : Session) (c p : String) (it : CartItem) (d : Int)
    (hrow : s.db.rowsFor c p = [it])
    (h0 : s.outcome 0 = none) (h1 : s.outcome 1 = none) :
    (DecreaseItem s c p d).1 = none ∧
    (∀ i ∈ ((Stmt.decreaseQuantity c p d).apply s.now s.db).rowsFor c p, 0 ≤ i.Quantity) ∧
    (∀ i ∈ (DecreaseItem s c p d).2.db.rowsFor c p, 0 ≤ i.Quantity) ∧
    (d < it.Quantity →
      (DecreaseItem s c p d).2.db.rowsFor c p =
        [{ it with Quantity := it.Quantity - d, UpdatedAt := s.now }]) ∧
    (it.Quantity ≤ d → (DecreaseItem s c p d).2.db.rowsFor c p = []) := by
  rw [decreaseItem_both_ok s c p d h0 h1]
  have hpost : (decreaseUnit s.now s.db c p d).rowsFor c p =
      ([{ it with Quantity := max (it.Quantity - d) 0, UpdatedAt := s.now }] : List CartItem).filter
        fun i => !(i.Quantity == 0) := by
    rw [rowsFor_decreaseUnit, hrow]; rfl
  refine ⟨rfl, ?_, ?_, ?_, ?_⟩
  · intro i hi
    rw [rowsFor_decreaseQuantity, hrow] at hi
    simp only [List.map_cons, List.map_nil, List.mem_singleton] at hi
    subst hi
    exact le_max_right _ _
  · intro i hi
    have hi2 : i ∈ (decreaseUnit s.now s.db c p d).rowsFor c p := hi
    rw [hpost] at hi2
    have hmem := (List.mem_filter.mp hi2).1
    simp only [List.mem_singleton] at hmem
    subst hmem
    exact le_max_right _ _
  · intro hlt
    show (decreaseUnit s.now s.db c p d).rowsFor c p = _
    rw [hpost]
    have hmax : max (it.Quantity - d) 0 = it.Quantity - d := max_eq_left (by omega)
    have hne : (it.Quantity - d == 0) = false := by
      simp only [beq_eq_false_iff_ne, ne_eq]; omega
    simp [List.filter, hmax, hne]
  · intro hle
    show (decreaseUnit s.now s.db c p d).rowsFor c p = _
    rw [hpost]
    have hmax : max (it.Quantity - d) 0 = 0 := max_eq_right (by omega)
    simp [List.filter, hmax]

/-- Witness of C2: a row of quantity 5 decreased by 5 with both statements succeeding. -/
theorem decreaseItem_floor_and_cleanup_witness :
    (DecreaseItem ⟨⟨[], [⟨"i1", "c1", "p1", 5, 1, 1⟩], [], 1⟩, 10, [], [], []⟩
      "c1" "p1" 5).2.db.rowsFor "c1" "p1" = [] :=
  (decreaseItem_floor_and_cleanup ⟨⟨[], [⟨"i1", "c1", "p1", 5, 1, 1⟩], [], 1⟩, 10, [], [], []⟩
    "c1" "p1" ⟨"i1", "c1", "p1", 5, 1, 1⟩ 5 (by decide) (by decide) (by decide)).2.2.2.2
    (by decide)

/-- C5 as stated fails: the decrease commits, the cleanup delete fails, and
DecreaseItem still reports success while the row stays stored with quantity 0. -/
theorem decreaseItem_not_single_unit :
    ¬ DecreaseIsUnit
        ⟨⟨[], [⟨"i1", "c1", "p1", 2, 1, 1⟩], [], 1⟩, 10, [none, some "delete failed"], [], []⟩
        "c1" "p1" 2 ∧
    (DecreaseItem
        ⟨⟨[], [⟨"i1", "c1", "p1", 2, 1, 1⟩], [], 1⟩, 10, [none, some "delete failed"], [], []⟩
        "c1" "p1" 2).1 = none ∧
    ((DecreaseItem
        ⟨⟨[], [⟨"i1", "c1", "p1", 2, 1, 1⟩], [], 1⟩, 10, [none, some "delete failed"], [], []⟩
        "c1" "p1" 2).2.db.rowsFor "c1" "p1").map (·.Quantity) = [0] := by
  unfold DecreaseIsUnit
  decide

/-- C5 amended: the decrease and the cleanup are two independent statements without
rollback.  When both succeed DecreaseItem reports success and the tables have the
floored decrease and the zero-row cleanup applied.  When the decrease statement
fails DecreaseItem reports that error and the decrease is not applied; the cleanup
is still sent, so the tables are unchanged when the cleanup fails too or when the
pair has no row of quantity 0, and otherwise differ only by the removal of the rows
of the pair with quantity 0. -/
theorem decreaseItem_two_statements (s : Session) (c p : String) (q : Int) :
    (s.outcome 0 = none → s.outcome 1 = none →
      (DecreaseItem s c p q).1 = none ∧
      (DecreaseItem s c p q).2.db = decreaseUnit s.now s.db c p q) ∧
    (∀ e : Error, s.outcome 0 = some e →
      (DecreaseItem s c p q).1 = some e ∧
      (s.outcome 1 ≠ none → (DecreaseItem s c p q).2.db = s.db) ∧
      ((∀ i ∈ s.db.rowsFor c p, i.Quantity ≠ 0) → (DecreaseItem s c p q).2.db = s.db) ∧
      (s.outcome 1 = none →
        (DecreaseItem s c p q).2.db = (Stmt.deleteZero c p).apply s.now s.db)) := by
  refine ⟨?_, ?_⟩
  · intro h0 h1
    rw [decreaseItem_both_ok s c p q h0 h1]
    exact ⟨rfl, rfl⟩
  · intro e h0
    obtain ⟨herr, hdb, hfail, hok⟩ := decreaseItem_first_fails s c p q e h0
    refine ⟨herr, hfail, ?_, hok⟩
    intro hnz
    rcases hdb with h | h
    · exact h
    · rw [h]
      exact deleteZero_no_zero s.db s.now c p hnz

/-- Witness of C5 amended: both statements succeed on a row of quantity 2 decreased
by 2, and a failing decrease statement reports its error. -/
theorem decreaseItem_two_statements_witness :
    (DecreaseItem ⟨⟨[], [⟨"i1", "c1", "p1", 2, 1, 1⟩], [], 1⟩, 10, [], [], []⟩
      "c1" "p1" 2).2.db = ⟨[], [], [], 1⟩ ∧
    (DecreaseItem ⟨⟨[], [⟨"i1", "c1", "p1", 2, 1, 1⟩], [], 1⟩, 10, [some "timeout"], [], []⟩
      "c1" "p1" 2).1 = some "timeout" :=
  ⟨((decreaseItem_two_statements ⟨⟨[], [⟨"i1", "c1", "p1", 2, 1, 1⟩], [], 1⟩, 10, [], [], []⟩
      "c1" "p1" 2).1 (by decide) (by decide)).2.trans (by decide),
   ((decreaseItem_two_statements
      ⟨⟨[], [⟨"i1", "c1", "p1", 2, 1, 1⟩], [], 1⟩, 10, [some "timeout"], [], []⟩
      "c1" "p1" 2).2 "timeout" (by decide)).1⟩

/-- C7: with a succeeding storage statement RemoveItem reports no error whether or
not a row of the pair exists; afterwards no row of the pair exists; when none
existed the tables are unchanged; and a second RemoveItem leaves the tables as the
first one left them. -/
theorem removeItem_idempotent (s : Session) (c p : String)
    (h0 : s.outcome 0 = none) (h1 : s.outcome 1 = none) :
    (RemoveItem s c p).1 = none ∧
    (RemoveItem s c p).2.db.rowsFor c p = [] ∧
    (s.db.rowsFor c p = [] → (RemoveItem s c p).2.db = s.db) ∧
    (RemoveItem (RemoveItem s c p).2 c p).1 = none ∧
    (RemoveItem (RemoveItem s c p).2 c p).2.db = (RemoveItem s c p).2.db := by
  have hnext : (RemoveItem s c p).2.outcome 0 = none := by
    rw [removeItem_ok s c p h0, outcome_succ_of_tail s _ rfl 0]; exact h1
  rw [removeItem_ok _ c p hnext, removeItem_ok s c p h0]
  refine ⟨rfl, rowsFor_deleteItem s.db s.now c p, ?_, rfl, ?_⟩
  · intro habs
    exact deleteItem_absent s.db s.now c p habs
  · exact deleteItem_absent _ s.now c p (rowsFor_deleteItem s.db s.now c p)

/-- Witness of C7: removing (c1, p9), which has no row, from a store holding (c1, p1). -/
theorem removeItem_idempotent_witness :
    (RemoveItem ⟨⟨[], [⟨"i1", "c1", "p1", 2, 1, 1⟩], [], 1⟩, 10, [], [], []⟩ "c1" "p9").1 = none ∧
    (RemoveItem ⟨⟨[], [⟨"i1", "c1", "p1", 2, 1, 1⟩], [], 1⟩, 10, [], [], []⟩ "c1" "p9").2.db
      = ⟨[], [⟨"i1", "c1", "p1", 2, 1, 1⟩], [], 1⟩ :=
  ⟨(removeItem_idempotent ⟨⟨[], [⟨"i1", "c1", "p1", 2, 1, 1⟩], [], 1⟩, 10, [], [], []⟩
      "c1" "p9" (by decide) (by decide)).1,
   (removeItem_idempotent ⟨⟨[], [⟨"i1", "c1", "p1", 2, 1, 1⟩], [], 1⟩, 10, [], [], []⟩
      "c1" "p9" (by decide) (by decide)).2.2.1 (by decide)⟩

/-- C9: for an existing cart whose stored update time lies before the clock reading
of the call, EmptyCart with both storage statements succeeding reports no error,
leaves no item row of the cart, and sets the update time of the cart to the clock
reading, strictly greater than the value before the call. -/
theorem emptyCart_clears_and_touches (s : Session) (c : String) (t0 : Time)
    (hcart : s.db.cartUpdatedAt c = some t0) (hclock : t0 < s.now)
    (h0 : s.outcome 0 = none) (h1 : s.outcome 1 = none) :
    (EmptyCart s c).1 = none ∧
    (EmptyCart s c).2.db.itemsOf c = [] ∧
    (EmptyCart s c).2.db.cartUpdatedAt c = some s.now ∧
    (∃ t1, (EmptyCart s c).2.db.cartUpdatedAt c = some t1 ∧ t0 < t1) := by
  rw [emptyCart_both_ok s c h0 h1]
  have hitems : ((Stmt.touchCart c).apply s.now
      ((Stmt.deleteCartItems c).apply s.now s.db)).itemsOf c = [] := by
    simp [Stmt.apply, DB.itemsOf, List.filter_filter]
  have htouch : ((Stmt.touchCart c).apply s.now
      ((Stmt.deleteCartItems c).apply s.now s.db)).cartUpdatedAt c = some s.now := by
    simp only [DB.cartUpdatedAt, Stmt.apply] at hcart ⊢
    rw [find_map_update (fun x : Cart => x.ID == c)
      (fun x => { x with UpdatedAt := s.now }) (fun _ => rfl)]
    cases hf : s.db.carts.find? (fun x : Cart => x.ID == c) with
    | none => rw [hf] at hcart; simp at hcart
    | some x => rfl
  exact ⟨rfl, hitems, htouch, s.now, htouch, hclock⟩

/-- Witness of C9: cart c1, last updated at 3, holding two items, emptied at time 10. -/
theorem emptyCart_clears_and_touches_witness :
    (EmptyCart ⟨⟨[⟨"c1", "u1", "active", 1, 3⟩],
        [⟨"i1", "c1", "p1", 2, 1, 1⟩, ⟨"i2", "c1", "p2", 1, 3, 3⟩], [], 2⟩, 10, [], [], []⟩
      "c1").2.db.itemsOf "c1" = [] :=
  (emptyCart_clears_and_touches ⟨⟨[⟨"c1", "u1", "active", 1, 3⟩],
      [⟨"i1", "c1", "p1", 2, 1, 1⟩, ⟨"i2", "c1", "p2", 1, 3, 3⟩], [], 2⟩, 10, [], [], []⟩
    "c1" 3 (by decide) (by decide) (by decide) (by decide)).2.1

/-! ## the positive-quantity invariant -/

theorem positive_upsert (db : DB) (now : Time) (c p : String) (q : Int) (hq : 0 < q)
    (h : PositiveQuantities db) : PositiveQuantities ((Stmt.upsertItem c p q).apply now db) := by
  intro i hi
  by_cases hany : db.cart_items.any (isPair c p) = true
  · simp only [Stmt.apply, hany, if_true, List.mem_map] at hi
    obtain ⟨j, hj, hji⟩ := hi
    have hjpos := h j hj
    by_cases hp : isPair c p j = true
    · simp only [hp, if_true] at hji
      subst hji
      show 0 < j.Quantity + q
      omega
    · simp only [hp] at hji
      subst hji
      exact hjpos
  · simp [Stmt.apply, hany] at hi
    rcases hi with hi | hi
    · exact h i hi
    · subst hi
      exact hq

theorem positive_of_items_subset (db db2 : DB) (h : PositiveQuantities db)
    (hsub : ∀ i ∈ db2.cart_items, i ∈ db.cart_items) : PositiveQuantities db2 :=
  fun i hi => h i (hsub i hi)

/-- C4: if every stored item has a strictly positive quantity, then after any of
CreateCart, AddItem, DecreaseItem, RemoveItem, EmptyCart, with any arguments and all
storage statements succeeding, every stored item still has a strictly positive
quantity; and a DecreaseItem that takes every row of its pair to zero or below
leaves no row of the pair. -/
theorem positive_quantity_invariant (s : Session) (op : Op)
    (hinv : PositiveQuantities s.db) (hok : s.allSucceed) :
    PositiveQuantities (op.run s).2.db ∧
    (∀ (c p : String) (qty : Int), (∀ i ∈ s.db.rowsFor c p, i.Quantity - qty ≤ 0) →
      (DecreaseItem s c p qty).2.db.rowsFor c p = []) := by
  have h0 := hok 0
  have h1 := hok 1
  constructor
  · cases op with
    | CreateCart u =>
      show PositiveQuantities (CreateCart s u).2.db
      rw [createCart_ok s u h0]
      exact positive_of_items_subset s.db _ hinv (fun i hi => hi)
    | AddItem c p q =>
      show PositiveQuantities (AddItem s c p q).2.db
      by_cases hq : q ≤ 0
      · rw [(addItem_rejects_zero s c p q hq).2]
        exact hinv
      · rw [addItem_ok s c p q (not_le.mp hq) h0]
        exact positive_upsert s.db s.now c p q (not_le.mp hq) hinv
    | DecreaseItem c p q =>
      show PositiveQuantities (DecreaseItem s c p q).2.db
      rw [decreaseItem_both_ok s c p q h0 h1]
      exact positive_decreaseUnit s.db s.now c p q hinv
    | RemoveItem c p =>
      show PositiveQuantities (RemoveItem s c p).2.db
      rw [removeItem_ok s c p h0]
      exact positive_of_items_subset s.db _ hinv
        (fun i hi => (List.mem_filter.mp hi).1)
    | EmptyCart c =>
      show PositiveQuantities (EmptyCart s c).2.db
      rw [emptyCart_both_ok s c h0 h1]
      exact positive_of_items_subset s.db _ hinv
        (fun i hi => (List.mem_filter.mp hi).1)
  · intro c p qty hall
    rw [decreaseItem_both_ok s c p qty h0 h1]
    show (decreaseUnit s.now s.db c p qty).rowsFor c p = []
    rw [rowsFor_decreaseUnit, List.filter_eq_nil_iff]
    intro i hi
    simp only [List.mem_map] at hi
    obtain ⟨j, hj, hji⟩ := hi
    subst hji
    have hle := hall j hj
    have hmax : max (j.Quantity - qty) 0 = 0 := max_eq_right hle
    simp [hmax]

/-- Witness of C4: DecreaseItem(c1, p1, 7) on a store whose only row has quantity 5. -/
theorem positive_quantity_invariant_witness :
    PositiveQuantities
      ((Op.DecreaseItem "c1" "p1" 7).run
        ⟨⟨[], [⟨"i1", "c1", "p1", 5, 1, 1⟩], [], 1⟩, 10, [], [], []⟩).2.db :=
  (positive_quantity_invariant ⟨⟨[], [⟨"i1", "c1", "p1", 5, 1, 1⟩], [], 1⟩, 10, [], [], []⟩
    (.DecreaseItem "c1" "p1" 7) (by decide)
    (by intro k; cases k <;> rfl)).1

/-! ## GetCart -/

theorem foldl_append_singleton {α : Type} (rows acc : List α) :
    rows.foldl (fun out r => out ++ [r]) acc = acc ++ rows := by
  induction rows generalizing acc with
  | nil => simp
  | cons r rs ih => simp [List.foldl, ih]

theorem getCart_ok (s : Session) (c : String) (h0 : s.outcome 0 = none) :
    GetCart s c =
      ((selectCartRows s.db c, none),
        { s with outcomes := s.outcomes.tail,
                 issued := s.issued ++ [.selectCart c],
                 calls := s.calls ++ [.GetCart] }) := by
  obtain ⟨db, now, outcomes, issued, calls⟩ := s
  rcases outcomes with _ | ⟨_ | e, rest⟩ <;>
    simp [Session.outcome] at h0 <;>
    simp [GetCart, Session.ExecContext, Session.enter, Stmt.apply, foldl_append_singleton]

theorem filter_key_eq_find (products : List Product) (k : String)
    (hkey : (products.map (·.ID)).Nodup) :
    (products.filter fun p => p.ID == k) = (products.find? fun p => p.ID == k).toList := by
  induction products with
  | nil => rfl
  | cons x xs ih =>
    rw [List.map_cons, List.nodup_cons] at hkey
    by_cases hx : (x.ID == k) = true
    · have hk : x.ID = k := by simpa using hx
      have hnone : (xs.filter fun p => p.ID == k) = [] := by
        rw [List.filter_eq_nil_iff]
        intro y hy hyk
        have hyk2 : y.ID = k := by simpa using hyk
        exact hkey.1 (List.mem_map.mpr ⟨y, hy, by rw [hyk2, hk]⟩)
      simp [List.filter, List.find?, hx, hnone]
    · simp [List.filter, List.find?, hx, ih hkey.2]

theorem flatMap_toList_eq_filterMap {α β : Type} (f : α → Option β) (l : List α) :
    (l.flatMap fun a => (f a).toList) = l.filterMap f := by
  induction l with
  | nil => rfl
  | cons x xs ih =>
    cases hx : f x with
    | none => simp [List.flatMap_cons, List.filterMap_cons, hx, ih]
    | some b => simp [List.flatMap_cons, List.filterMap_cons, hx, ih]

theorem joinRows_eq_referenceRows (db : DB) (c : String) (hkey : ProductsKeyed db) :
    joinRows db c = referenceRows db c := by
  unfold joinRows referenceRows DB.itemsOf DB.product?
  rw [← flatMap_toList_eq_filterMap]
  congr 1
  funext ci
  rw [filter_key_eq_find db.products ci.ProductID hkey]
  cases db.products.find? (fun p => p.ID == ci.ProductID) <;> rfl

theorem itemsOf_nil_of_no_cart (db : DB) (c : String) (href : ItemsReferenceCarts db)
    (hno : ∀ cart ∈ db.carts, cart.ID ≠ c) : db.itemsOf c = [] := by
  unfold DB.itemsOf
  rw [List.filter_eq_nil_iff]
  intro i hi hic
  have hic2 : i.CartID = c := by simpa using hic
  obtain ⟨cart, hcart, hid⟩ := href i hi
  exact hno cart hcart (by rw [hid, hic2])

/-- C8: with a succeeding query and a product catalog keyed by product id, GetCart
reports no error, leaves the tables as they are, and returns an answer of the
reference query: exactly one row per item of the cart whose product is in the
catalog (item id, product id, quantity and timestamps with the name and price of the
product; no row for a dangling product reference), in ascending order of item
creation time.  For a cart without items the result is the empty sequence, and so it
is for a cart id that does not exist (items only reference existing carts). -/
theorem getCart_reference_query (s : Session) (c : String)
    (h0 : s.outcome 0 = none) (hkey : ProductsKeyed s.db) :
    (GetCart s c).1.2 = none ∧
    (GetCart s c).2.db = s.db ∧
    IsReferenceAnswer s.db c (GetCart s c).1.1 ∧
    (s.db.itemsOf c = [] → (GetCart s c).1.1 = []) ∧
    (ItemsReferenceCarts s.db → (∀ cart ∈ s.db.carts, cart.ID ≠ c) →
      (GetCart s c).1.1 = []) := by
  rw [getCart_ok s c h0]
  have hempty : s.db.itemsOf c = [] → selectCartRows s.db c = [] := by
    intro hnil
    unfold DB.itemsOf at hnil
    simp [selectCartRows, joinRows, hnil]
  refine ⟨rfl, rfl, ⟨?_, ?_⟩, hempty, ?_⟩
  · show (selectCartRows s.db c).Perm (referenceRows s.db c)
    unfold selectCartRows
    rw [joinRows_eq_referenceRows s.db c hkey]
    exact List.perm_insertionSort _ _
  · show (selectCartRows s.db c).Sorted _
    exact List.sorted_insertionSort _ _
  · intro href hno
    exact hempty (itemsOf_nil_of_no_cart s.db c href hno)

/-- Witness of C8: cart c1 holds p2 (created at 7), p1 (created at 3) and an item of
the unknown product p9; the rows come back as p1 then p2. -/
theorem getCart_reference_query_witness :
    (GetCart ⟨⟨[⟨"c1", "u1", "active", 1, 7⟩],
        [⟨"i1", "c1", "p2", 1, 7, 7⟩, ⟨"i2", "c1", "p1", 4, 3, 5⟩, ⟨"i3", "c1", "p9", 2, 4, 4⟩],
        [⟨"p1", "pen", 150⟩, ⟨"p2", "ink", 900⟩], 3⟩, 10, [], [], []⟩ "c1").1.1
      = [⟨"i2", "p1", 4, "pen", 150, 3, 5⟩, ⟨"i1", "p2", 1, "ink", 900, 7, 7⟩] ∧
    IsReferenceAnswer
      ⟨[⟨"c1", "u1", "active", 1, 7⟩],
        [⟨"i1", "c1", "p2", 1, 7, 7⟩, ⟨"i2", "c1", "p1", 4, 3, 5⟩, ⟨"i3", "c1", "p9", 2, 4, 4⟩],
        [⟨"p1", "pen", 150⟩, ⟨"p2", "ink", 900⟩], 3⟩ "c1"
      [⟨"i2", "p1", 4, "pen", 150, 3, 5⟩, ⟨"i1", "p2", 1, "ink", 900, 7, 7⟩] :=
  ⟨by decide,
   (getCart_reference_query ⟨⟨[⟨"c1", "u1", "active", 1, 7⟩],
        [⟨"i1", "c1", "p2", 1, 7, 7⟩, ⟨"i2", "c1", "p1", 4, 3, 5⟩, ⟨"i3", "c1", "p9", 2, 4, 4⟩],
        [⟨"p1", "pen", 150⟩, ⟨"p2", "ink", 900⟩], 3⟩, 10, [], [], []⟩ "c1"
      (by decide) (by unfold ProductsKeyed; decide)).2.2.1⟩

/-! ## request paths -/

theorem split_ne_nil (l : List Char) : Split l ≠ [] := by
  cases l with
  | nil => simp [Split]
  | cons c cs =>
    unfold Split
    split
    · simp
    · split <;> simp

theorem join_split (l : List Char) : joinParts (Split l) = l := by
  induction l with
  | nil => rfl
  | cons c cs ih =>
    unfold Split
    by_cases hc : c = '/'
    · simp only [hc, if_true]
      cases hs : Split cs with
      | nil => exact absurd hs (split_ne_nil cs)
      | cons b t =>
        rw [hs] at ih
        simp [joinParts, ih]
    · simp only [hc, if_false]
      cases hs : Split cs with
      | nil => exact absurd hs (split_ne_nil cs)
      | cons part parts =>
        rw [hs] at ih
        cases parts with
        | nil => simpa [joinParts] using ih
        | cons b t =>
          simp only [joinParts] at ih ⊢
          simp [ih]

theorem split_no_slash (l : List Char) : ∀ part ∈ Split l, '/' ∉ part := by
  induction l with
  | nil => simp [Split]
  | cons c cs ih =>
    unfold Split
    by_cases hc : c = '/'
    · simp only [hc, if_true]
      intro part hpart
      rcases List.mem_cons.mp hpart with h | h
      · subst h; simp
      · exact ih part h
    · simp only [hc, if_false]
      cases hs : Split cs with
      | nil => exact absurd hs (split_ne_nil cs)
      | cons a t =>
        rw [hs] at ih
        intro part hpart
        rcases List.mem_cons.mp hpart with h | h
        · subst h
          intro hmem
          rcases List.mem_cons.mp hmem with h2 | h2
          · exact hc h2.symm
          · exact ih a (List.mem_cons_self _ _) h2
        · exact ih part (List.mem_cons_of_mem _ h)

theorem join_ends_with (mid : List (List Char)) (last : List Char) :
    ∃ w, joinParts (mid ++ [last]) = w ++ last := by
  induction mid with
  | nil => exact ⟨[], rfl⟩
  | cons m rest ih =>
    obtain ⟨w, hw⟩ := ih
    cases hr : rest ++ [last] with
    | nil => simp at hr
    | cons b t =>
      rw [hr] at hw
      refine ⟨m ++ '/' :: w, ?_⟩
      rw [List.cons_append, hr]
      simp [joinParts, hw]

theorem trim_of_split (rest first last : List Char) (mid : List (List Char))
    (h : Split rest = first :: (mid ++ [last])) (hfirst : first ≠ []) (hlast : last ≠ []) :
    Trim ('/' :: rest) = rest := by
  have hno := split_no_slash rest
  rw [h] at hno
  have hjoin := join_split rest
  rw [h] at hjoin
  obtain ⟨w, hw⟩ := join_ends_with mid last
  have hrest : rest = first ++ '/' :: (w ++ last) := by
    rw [← hjoin]
    cases hr : mid ++ [last] with
    | nil => simp at hr
    | cons b t =>
      rw [hr] at hw
      simp [joinParts, hw]
  obtain ⟨a, tl, hcons⟩ := List.exists_cons_of_ne_nil hfirst
  have ha : a ≠ '/' := by
    intro ha
    exact hno first (List.mem_cons_self _ _) (by rw [hcons, ha]; exact List.mem_cons_self _ _)
  have hz : last.getLast hlast ≠ '/' := by
    intro hz
    have hmem : last ∈ first :: (mid ++ [last]) := by simp
    exact hno last hmem (by rw [← hz]; exact List.getLast_mem hlast)
  have hshape : rest =
      (first ++ '/' :: (w ++ last.dropLast)) ++ [last.getLast hlast] := by
    conv_lhs => rw [hrest, ← List.dropLast_append_getLast hlast]
    simp [List.append_assoc]
  have hdrop : List.dropWhile (fun c => c == '/') ('/' :: rest) = rest := by
    have hab : (a == '/') = false := by simpa using ha
    rw [hrest, hcons]
    simp [List.dropWhile, hab]
  unfold Trim
  rw [hdrop]
  conv_lhs => rw [hshape]
  rw [List.rdropWhile_concat_neg _ _ _ (by simpa using hz)]
  exact hshape.symm


theorem unescape_plain (l : List Char) (h : '%' ∉ l) : unescape l = some l := by
  induction l with
  | nil => rfl
  | cons c cs ih =>
    have hc : c ≠ '%' := fun e => h (by rw [e]; exact List.mem_cons_self _ _)
    have hcs : '%' ∉ cs := fun e => h (List.mem_cons_of_mem _ e)
    unfold unescape
    simp [hc, ih hcs]

theorem pathUnescape_plain (l : List Char) (h : '%' ∉ l) : pathUnescape l = l := by
  unfold pathUnescape
  rw [unescape_plain l h]
  rfl

theorem split_chars (l : List Char) : ∀ part ∈ Split l, ∀ c ∈ part, c ∈ l := by
  induction l with
  | nil => simp [Split]
  | cons x xs ih =>
    unfold Split
    by_cases hx : x = '/'
    · simp only [hx, if_true]
      intro part hpart c hc
      rcases List.mem_cons.mp hpart with h | h
      · subst h; simp at hc
      · exact List.mem_cons_of_mem _ (ih part h c hc)
    · simp only [hx, if_false]
      cases hs : Split xs with
      | nil => exact absurd hs (split_ne_nil xs)
      | cons a t =>
        rw [hs] at ih
        intro part hpart c hc
        rcases List.mem_cons.mp hpart with h | h
        · subst h
          rcases List.mem_cons.mp hc with h2 | h2
          · rw [h2]; exact List.mem_cons_self _ _
          · exact List.mem_cons_of_mem _ (ih a (List.mem_cons_self _ _) c h2)
        · exact List.mem_cons_of_mem _ (ih part (List.mem_cons_of_mem _ h) c hc)

theorem dispatch_route (r : Request) (h : Handler) (hd : dispatch r = some h) :
    ∃ rt ∈ RegisterCartRoutes, rt.Handler = h ∧ methodAccepts rt.Method r.Method = true ∧
      patternAccepts rt.Pattern r.EscapedPath = true := by
  unfold dispatch at hd
  rw [Option.map_eq_some'] at hd
  obtain ⟨rt, hfind, hh⟩ := hd
  have hp := List.find?_some hfind
  have hmem := List.mem_of_find?_eq_some hfind
  simp only [Bool.and_eq_true] at hp
  exact ⟨rt, hmem, hh, hp.1, hp.2⟩

theorem method_of_accepts (registered method : String) (hreg : registered ≠ "GET")
    (h : methodAccepts registered method = true) : method = registered := by
  unfold methodAccepts at h
  simpa [hreg] using h

theorem dispatch_createCart (r : Request) (hd : dispatch r = some .createCart) :
    r.Method = "POST" := by
  obtain ⟨rt, hmem, hh, hm, _⟩ := dispatch_route r _ hd
  simp only [RegisterCartRoutes, List.mem_cons, List.mem_singleton, List.not_mem_nil,
    or_false] at hmem
  rcases hmem with rfl | rfl | rfl | rfl | rfl | rfl <;> simp at hh
  exact method_of_accepts "POST" r.Method (by decide) hm

theorem dispatch_addItem (r : Request) (hd : dispatch r = some .addItem) :
    r.Method = "POST" ∧
    patternAccepts [.lit "carts", .wild, .lit "items"] r.EscapedPath = true := by
  obtain ⟨rt, hmem, hh, hm, hpat⟩ := dispatch_route r _ hd
  simp only [RegisterCartRoutes, List.mem_cons, List.mem_singleton, List.not_mem_nil,
    or_false] at hmem
  rcases hmem with rfl | rfl | rfl | rfl | rfl | rfl <;> simp at hh
  exact ⟨method_of_accepts "POST" r.Method (by decide) hm, hpat⟩

theorem dispatch_decreaseItem (r : Request) (hd : dispatch r = some .decreaseItem) :
    r.Method = "PATCH" ∧
    patternAccepts [.lit "carts", .wild, .lit "items", .wild] r.EscapedPath = true := by
  obtain ⟨rt, hmem, hh, hm, hpat⟩ := dispatch_route r _ hd
  simp only [RegisterCartRoutes, List.mem_cons, List.mem_singleton, List.not_mem_nil,
    or_false] at hmem
  rcases hmem with rfl | rfl | rfl | rfl | rfl | rfl <;> simp at hh
  exact ⟨method_of_accepts "PATCH" r.Method (by decide) hm, hpat⟩

theorem accepts_three (r : Request) (hplain : '%' ∉ r.EscapedPath.data)
    (h : patternAccepts [.lit "carts", .wild, .lit "items"] r.EscapedPath = true) :
    ∃ cartID : String, pathParts r.Path = ["carts", cartID, "items"] := by
  unfold patternAccepts at h
  split at h
  · rename_i rest hdata
    simp only [Bool.and_eq_true] at h
    have hseg := h.2
    have hprest : ∀ part ∈ Split rest, '%' ∉ part := by
      intro part hpart hc
      apply hplain
      rw [hdata]
      exact List.mem_cons_of_mem _ (split_chars rest part hpart _ hc)
    rcases hs : Split rest with _ | ⟨a, _ | ⟨b, _ | ⟨c, _ | ⟨d, t⟩⟩⟩⟩ <;>
      rw [hs] at hseg <;> simp [segsAccept, Seg.accepts] at hseg
    rw [hs] at hprest
    obtain ⟨⟨ha0, ha⟩, ⟨hb0, _⟩, hc0, hc⟩ := hseg
    rw [pathUnescape_plain a (hprest a (by simp))] at ha
    rw [pathUnescape_plain c (hprest c (by simp))] at hc
    have htrim := trim_of_split rest a c [b] hs ha0 hc0
    refine ⟨String.mk b, ?_⟩
    unfold pathParts Request.Path
    rw [pathUnescape_plain _ hplain, hdata, htrim, hs, ha, hc]
    rfl
  · exact absurd h (by simp)

theorem accepts_four (r : Request) (hplain : '%' ∉ r.EscapedPath.data)
    (h : patternAccepts [.lit "carts", .wild, .lit "items", .wild] r.EscapedPath = true) :
    ∃ cartID productID : String,
      pathParts r.Path = ["carts", cartID, "items", productID] := by
  unfold patternAccepts at h
  split at h
  · rename_i rest hdata
    simp only [Bool.and_eq_true] at h
    have hseg := h.2
    have hprest : ∀ part ∈ Split rest, '%' ∉ part := by
      intro part hpart hc
      apply hplain
      rw [hdata]
      exact List.mem_cons_of_mem _ (split_chars rest part hpart _ hc)
    rcases hs : Split rest with _ | ⟨a, _ | ⟨b, _ | ⟨c, _ | ⟨d, _ | ⟨e, t⟩⟩⟩⟩⟩ <;>
      rw [hs] at hseg <;> simp [segsAccept, Seg.accepts] at hseg
    rw [hs] at hprest
    obtain ⟨⟨ha0, ha⟩, ⟨hb0, _⟩, ⟨hc0, hc⟩, hd0, _⟩ := hseg
    rw [pathUnescape_plain a (hprest a (by simp))] at ha
    rw [pathUnescape_plain c (hprest c (by simp))] at hc
    have htrim := trim_of_split rest a d [b, c] hs ha0 hd0
    refine ⟨String.mk b, String.mk d, ?_⟩
    unfold pathParts Request.Path
    rw [pathUnescape_plain _ hplain, hdata, htrim, hs, ha, hc]
    rfl
  · exact absurd h (by simp)

/-! ## handlers -/

theorem createCart_invalid (r : Request) (conn : Session)
    (hbody : r.Body = none ∨ ∃ b, r.Body = some b ∧ b.UserID = "") :
    (createCart r conn).2 = conn ∧
    (r.Method = "POST" →
      createCart r conn = (⟨StatusBadRequest, .text "invalid body"⟩, conn)) := by
  unfold createCart
  rcases hbody with hb | ⟨b, hb, hu⟩
  · rw [hb]
    by_cases hm : r.Method = "POST" <;> simp [hm, httpError]
  · rw [hb]
    by_cases hm : r.Method = "POST" <;> simp [hm, hu, httpError]

theorem addItem_invalid (r : Request) (conn : Session)
    (hbody : r.Body = none ∨ ∃ b, r.Body = some b ∧ (b.ProductID = "" ∨ b.Quantity ≤ 0)) :
    (addItem r conn).2 = conn ∧
    (r.Method = "POST" → (∃ cartID, pathParts r.Path = ["carts", cartID, "items"]) →
      addItem r conn = (⟨StatusBadRequest, .text "invalid body"⟩, conn)) := by
  constructor
  · unfold addItem
    split
    · rfl
    · split
      · split
        · rfl
        · rcases hbody with hb | ⟨b, hb, hbad⟩
          · rw [hb]
          · rw [hb]; simp only [hbad, if_true]
      · rfl
  · intro hm ⟨cartID, hparts⟩
    unfold addItem
    rcases hbody with hb | ⟨b, hb, hbad⟩
    · simp [hm, hparts, hb, httpError]
    · simp [hm, hparts, hb, hbad, httpError]

theorem decreaseItem_invalid (r : Request) (conn : Session)
    (hbody : r.Body = none ∨ ∃ b, r.Body = some b ∧ b.Quantity ≤ 0) :
    (decreaseItem r conn).2 = conn ∧
    (r.Method = "PATCH" →
      (∃ cartID productID, pathParts r.Path = ["carts", cartID, "items", productID]) →
      decreaseItem r conn =
        (⟨StatusBadRequest, .text "invalid body: need positive 'quantity'"⟩, conn)) := by
  constructor
  · unfold decreaseItem
    split
    · rfl
    · split
      · split
        · rfl
        · rcases hbody with hb | ⟨b, hb, hbad⟩
          · rw [hb]
          · rw [hb]; simp only [hbad, if_true]
      · rfl
  · intro hm ⟨cartID, productID, hparts⟩
    unfold decreaseItem
    rcases hbody with hb | ⟨b, hb, hbad⟩
    · simp [hm, hparts, hb, httpError]
    · simp [hm, hparts, hb, hbad, httpError]

theorem addItem_guard_fails (r : Request) (conn : Session)
    (hg : ¬ ∃ cartID, pathParts r.Path = ["carts", cartID, "items"]) :
    addItem r conn = (httpNotFound, conn) := by
  unfold addItem
  split
  · rfl
  · split
    · rename_i p0 cartID p2 heq
      split
      · rfl
      · rename_i hcond
        rw [not_or, not_not, not_not] at hcond
        exact absurd ⟨cartID, by rw [heq, hcond.1, hcond.2]⟩ hg
    · rfl

theorem decreaseItem_guard_fails (r : Request) (conn : Session)
    (hg : ¬ ∃ cartID productID, pathParts r.Path = ["carts", cartID, "items", productID]) :
    decreaseItem r conn = (httpNotFound, conn) := by
  unfold decreaseItem
  split
  · rfl
  · split
    · rename_i p0 cartID p2 productID heq
      split
      · rfl
      · rename_i hcond
        rw [not_or, not_not, not_not] at hcond
        exact absurd ⟨cartID, productID, by rw [heq, hcond.1, hcond.2]⟩ hg
    · rfl

/-- C6 as stated fails: DecreaseItem(c1, p1, -3) on a row of quantity 2, both
statements succeeding, signals no error, sends both statements, and the stored
quantity changes from 2 to 5. -/
theorem decreaseItem_negative_qty_increases :
    ((⟨[], [⟨"i1", "c1", "p1", 2, 1, 1⟩], [], 1⟩ : DB).rowsFor "c1" "p1").map (·.Quantity)
      = [2] ∧
    (DecreaseItem ⟨⟨[], [⟨"i1", "c1", "p1", 2, 1, 1⟩], [], 1⟩, 10, [], [], []⟩
      "c1" "p1" (-3)).1 = none ∧
    (DecreaseItem ⟨⟨[], [⟨"i1", "c1", "p1", 2, 1, 1⟩], [], 1⟩, 10, [], [], []⟩
      "c1" "p1" (-3)).2.issued =
        [.decreaseQuantity "c1" "p1" (-3), .deleteZero "c1" "p1"] ∧
    ((DecreaseItem ⟨⟨[], [⟨"i1", "c1", "p1", 2, 1, 1⟩], [], 1⟩, 10, [], [], []⟩
      "c1" "p1" (-3)).2.db.rowsFor "c1" "p1").map (·.Quantity) = [5] := by
  decide

/-- C6 amended: a quantity that is zero or negative is rejected by the decreaseItem
handler, the only caller of the store operation: the handler returns the session as
received (no store operation entered, no statement sent, no stored quantity changed)
and answers 400 once its method and path guard is passed.  The store operation
DecreaseItem does not check its quantity argument: with such a quantity and both
statements succeeding it reports no error, applies the floored decrease and the
cleanup, and a row of positive quantity n is left with quantity n - qty. -/
theorem decreaseItem_qty_checked_by_handler (s : Session) (c p : String) (qty : Int)
    (hq : qty ≤ 0) :
    (∀ (r : Request) (b : Payload), r.Body = some b → b.Quantity = qty →
      (decreaseItem r s).2 = s ∧
      (r.Method = "PATCH" → pathParts r.Path = ["carts", c, "items", p] →
        decreaseItem r s =
          (⟨StatusBadRequest, .text "invalid body: need positive 'quantity'"⟩, s))) ∧
    (s.outcome 0 = none → s.outcome 1 = none →
      (DecreaseItem s c p qty).1 = none ∧
      (DecreaseItem s c p qty).2.db = decreaseUnit s.now s.db c p qty ∧
      (∀ it : CartItem, s.db.rowsFor c p = [it] → 0 < it.Quantity →
        (DecreaseItem s c p qty).2.db.rowsFor c p =
          [{ it with Quantity := it.Quantity - qty, UpdatedAt := s.now }])) := by
  constructor
  · intro r b hb hbq
    have hbody : r.Body = none ∨ ∃ b, r.Body = some b ∧ b.Quantity ≤ 0 :=
      Or.inr ⟨b, hb, by rw [hbq]; exact hq⟩
    refine ⟨(decreaseItem_invalid r s hbody).1, ?_⟩
    intro hm hparts
    exact (decreaseItem_invalid r s hbody).2 hm ⟨c, p, hparts⟩
  · intro h0 h1
    rw [decreaseItem_both_ok s c p qty h0 h1]
    refine ⟨rfl, rfl, ?_⟩
    intro it hrow hpos
    show (decreaseUnit s.now s.db c p qty).rowsFor c p = _
    rw [rowsFor_decreaseUnit, hrow]
    have hmax : max (it.Quantity - qty) 0 = it.Quantity - qty := max_eq_left (by omega)
    have hne : (it.Quantity - qty == 0) = false := by
      simp only [beq_eq_false_iff_ne, ne_eq]; omega
    simp [List.filter, hmax, hne]

/-- Witness of C6 amended: PATCH /carts/c1/items/p1 with quantity -3 on a store
holding a row of quantity 2 is answered 400 with the session as received. -/
theorem decreaseItem_qty_checked_by_handler_witness :
    decreaseItem ⟨"PATCH", "/carts/c1/items/p1", some ⟨"", "", -3⟩⟩
        ⟨⟨[], [⟨"i1", "c1", "p1", 2, 1, 1⟩], [], 1⟩, 10, [], [], []⟩
      = (⟨StatusBadRequest, .text "invalid body: need positive 'quantity'"⟩,
          ⟨⟨[], [⟨"i1", "c1", "p1", 2, 1, 1⟩], [], 1⟩, 10, [], [], []⟩) :=
  ((decreaseItem_qty_checked_by_handler
      ⟨⟨[], [⟨"i1", "c1", "p1", 2, 1, 1⟩], [], 1⟩, 10, [], [], []⟩ "c1" "p1" (-3)
      (by decide)).1
    ⟨"PATCH", "/carts/c1/items/p1", some ⟨"", "", -3⟩⟩ ⟨"", "", -3⟩ rfl rfl).2
    (by decide) (by decide)

/-- C10 as stated fails: POST /carts/a%2Fb/items with quantity 0 is handed to addItem
by the registered routes (the mux matches the escaped path), the decoded path has
four parts, and the answer is 404, not 400.  The session is returned as received. -/
theorem addItem_escaped_slash_not_found :
    dispatch ⟨"POST", "/carts/a%2Fb/items", some ⟨"", "p1", 0⟩⟩ = some .addItem ∧
    Request.Path ⟨"POST", "/carts/a%2Fb/items", some ⟨"", "p1", 0⟩⟩ = "/carts/a/b/items" ∧
    ServeHTTP ⟨"POST", "/carts/a%2Fb/items", some ⟨"", "p1", 0⟩⟩
        ⟨⟨[], [], [], 0⟩, 10, [], [], []⟩
      = some (⟨StatusNotFound, .text "404 page not found"⟩,
          ⟨⟨[], [], [], 0⟩, 10, [], [], []⟩) ∧
    ServeHTTP ⟨"POST", "/carts/a%2Fb/items", some ⟨"", "p1", 0⟩⟩
        ⟨⟨[], [], [], 0⟩, 10, [], [], []⟩
      ≠ some (⟨StatusBadRequest, .text "invalid body"⟩,
          ⟨⟨[], [], [], 0⟩, 10, [], [], []⟩) := by
  decide

/-- C10 amended: for a request with an undecodable body or an empty user_id
(createCart), an undecodable body, an empty product_id or a quantity <= 0 (addItem),
an undecodable body or a quantity <= 0 (decreaseItem), the handler returns the
session exactly as received, whatever the method and path: no store operation is
entered, no statement is sent, the tables are unchanged.  For a request that the
registered routes hand to the handler the answer is 400 when the path guard of the
handler is passed: always for createCart, and for addItem and decreaseItem when the
decoded path has exactly the parts carts, id, items (and product id), which is the
case whenever the path has no percent escape; when the decoded path fails that guard
the answer is 404. -/
theorem facade_validation_store_untouched (r : Request) (conn : Session) :
    ((r.Body = none ∨ ∃ b, r.Body = some b ∧ b.UserID = "") →
      (createCart r conn).2 = conn ∧
      (dispatch r = some .createCart →
        ServeHTTP r conn = some (⟨StatusBadRequest, .text "invalid body"⟩, conn))) ∧
    ((r.Body = none ∨ ∃ b, r.Body = some b ∧ (b.ProductID = "" ∨ b.Quantity ≤ 0)) →
      (addItem r conn).2 = conn ∧
      (dispatch r = some .addItem →
        ((∃ cartID, pathParts r.Path = ["carts", cartID, "items"]) →
          ServeHTTP r conn = some (⟨StatusBadRequest, .text "invalid body"⟩, conn)) ∧
        ((¬ ∃ cartID, pathParts r.Path = ["carts", cartID, "items"]) →
          ServeHTTP r conn = some (⟨StatusNotFound, .text "404 page not found"⟩, conn)) ∧
        ('%' ∉ r.EscapedPath.data →
          ServeHTTP r conn = some (⟨StatusBadRequest, .text "invalid body"⟩, conn)))) ∧
    ((r.Body = none ∨ ∃ b, r.Body = some b ∧ b.Quantity ≤ 0) →
      (decreaseItem r conn).2 = conn ∧
      (dispatch r = some .decreaseItem →
        ((∃ cartID productID, pathParts r.Path = ["carts", cartID, "items", productID]) →
          ServeHTTP r conn =
            some (⟨StatusBadRequest, .text "invalid body: need positive 'quantity'"⟩, conn)) ∧
        ((¬ ∃ cartID productID, pathParts r.Path = ["carts", cartID, "items", productID]) →
          ServeHTTP r conn = some (⟨StatusNotFound, .text "404 page not found"⟩, conn)) ∧
        ('%' ∉ r.EscapedPath.data →
          ServeHTTP r conn =
            some (⟨StatusBadRequest, .text "invalid body: need positive 'quantity'"⟩,
              conn)))) := by
  refine ⟨?_, ?_, ?_⟩
  · intro hbody
    refine ⟨(createCart_invalid r conn hbody).1, ?_⟩
    intro hd
    simp only [ServeHTTP, hd, Option.map_some', Handler.serve]
    rw [(createCart_invalid r conn hbody).2 (dispatch_createCart r hd)]
  · intro hbody
    refine ⟨(addItem_invalid r conn hbody).1, ?_⟩
    intro hd
    obtain ⟨hm, hpat⟩ := dispatch_addItem r hd
    have hserve : ServeHTTP r conn = some (addItem r conn) := by
      simp only [ServeHTTP, hd, Option.map_some', Handler.serve]
    rw [hserve]
    refine ⟨?_, ?_, ?_⟩
    · intro hg
      rw [(addItem_invalid r conn hbody).2 hm hg]
    · intro hg
      rw [addItem_guard_fails r conn hg]
      rfl
    · intro hplain
      rw [(addItem_invalid r conn hbody).2 hm (accepts_three r hplain hpat)]
  · intro hbody
    refine ⟨(decreaseItem_invalid r conn hbody).1, ?_⟩
    intro hd
    obtain ⟨hm, hpat⟩ := dispatch_decreaseItem r hd
    have hserve : ServeHTTP r conn = some (decreaseItem r conn) := by
      simp only [ServeHTTP, hd, Option.map_some', Handler.serve]
    rw [hserve]
    refine ⟨?_, ?_, ?_⟩
    · intro hg
      rw [(decreaseItem_invalid r conn hbody).2 hm hg]
    · intro hg
      rw [decreaseItem_guard_fails r conn hg]
      rfl
    · intro hplain
      rw [(decreaseItem_invalid r conn hbody).2 hm (accepts_four r hplain hpat)]

/-- Witness of C10 amended: POST /carts/c1/items with quantity 0, PATCH
/carts/c1/items/p1 with quantity -2, and POST /carts with an undecodable body. -/
theorem facade_validation_store_untouched_witness :
    ServeHTTP ⟨"POST", "/carts/c1/items", some ⟨"", "p1", 0⟩⟩
        ⟨⟨[], [⟨"i1", "c1", "p1", 5, 1, 1⟩], [], 1⟩, 10, [], [], []⟩
      = some (⟨StatusBadRequest, .text "invalid body"⟩,
          ⟨⟨[], [⟨"i1", "c1", "p1", 5, 1, 1⟩], [], 1⟩, 10, [], [], []⟩) ∧
    ServeHTTP ⟨"PATCH", "/carts/c1/items/p1", some ⟨"", "", -2⟩⟩
        ⟨⟨[], [⟨"i1", "c1", "p1", 5, 1, 1⟩], [], 1⟩, 10, [], [], []⟩
      = some (⟨StatusBadRequest, .text "invalid body: need positive 'quantity'"⟩,
          ⟨⟨[], [⟨"i1", "c1", "p1", 5, 1, 1⟩], [], 1⟩, 10, [], [], []⟩) ∧
    ServeHTTP ⟨"POST", "/carts", none⟩
        ⟨⟨[], [⟨"i1", "c1", "p1", 5, 1, 1⟩], [], 1⟩, 10, [], [], []⟩
      = some (⟨StatusBadRequest, .text "invalid body"⟩,
          ⟨⟨[], [⟨"i1", "c1", "p1", 5, 1, 1⟩], [], 1⟩, 10, [], [], []⟩) :=
  ⟨(((facade_validation_store_untouched ⟨"POST", "/carts/c1/items", some ⟨"", "p1", 0⟩⟩
      ⟨⟨[], [⟨"i1", "c1", "p1", 5, 1, 1⟩], [], 1⟩, 10, [], [], []⟩).2.1
      (Or.inr ⟨⟨"", "p1", 0⟩, rfl, Or.inr (by decide)⟩)).2 (by decide)).2.2 (by decide),
   (((facade_validation_store_untouched ⟨"PATCH", "/carts/c1/items/p1", some ⟨"", "", -2⟩⟩
      ⟨⟨[], [⟨"i1", "c1", "p1", 5, 1, 1⟩], [], 1⟩, 10, [], [], []⟩).2.2
      (Or.inr ⟨⟨"", "", -2⟩, rfl, by decide⟩)).2 (by decide)).2.2 (by decide),
   ((facade_validation_store_untouched ⟨"POST", "/carts", none⟩
      ⟨⟨[], [⟨"i1", "c1", "p1", 5, 1, 1⟩], [], 1⟩, 10, [], [], []⟩).1
      (Or.inl rfl)).2 (by decide)⟩

end CartService
